import Mathlib

/-!
Verification development for the incident-detection engine of
`speed-alert-app` (`src/index.tsx`).

The engine state is the collection of mutable refs held by the component
(`lastSpeed`, `lastLocationTimestamp`, `accelPeakTimestamp`, the three
detection flags, `lastAlertTimestamp`, `lastKnownCoordinates`,
`alertsEnabled`).  Timestamps (`Date.now()` values, milliseconds) are
modelled as `ℤ`; metric values (speeds in km/h, acceleration in g, tilt in
degrees) as `ℚ`.  The source derives `magnitudeG` and `tilt` from raw
`(x, y, z)` components with `sqrt`/`atan2` (lines 202, 226-228); the
detector logic consumes only those derived metrics, so motion samples
carry them directly.  UI display state (`setCurrentSpeed`,
`setMomentumChangeDetected`, ...) is rendering-only and not part of the
engine state.

The outcome of the external SMS delivery call is an input to the model
(`ok : ℤ → Bool`, indexed by dispatch time): the source's `triggerAlert`
only shows an error popup in its `catch` block and touches no engine
state, which the theorems below make precise.
-/

namespace SpeedAlert

/-- `SPEED_DROP_THRESHOLD_KMH` (src/index.tsx line 22). -/
def SPEED_DROP_THRESHOLD_KMH : ℚ := 40

/-- `ACCEL_MAGNITUDE_THRESHOLD_G` (line 23). -/
def ACCEL_MAGNITUDE_THRESHOLD_G : ℚ := 3

/-- `ACCEL_DURATION_THRESHOLD_MS` (line 24). -/
def ACCEL_DURATION_THRESHOLD_MS : ℤ := 60

/-- `TILT_DANGER_THRESHOLD_DEG` (line 25). -/
def TILT_DANGER_THRESHOLD_DEG : ℚ := 30

/-- `COMBINED_ALERT_WINDOW_MS` (line 31). -/
def COMBINED_ALERT_WINDOW_MS : ℤ := 2000

/-- `ALERT_COOLDOWN_MS` (line 32). -/
def ALERT_COOLDOWN_MS : ℤ := 10000

/-- Payload of `speedDropDetected.current` (line 53). -/
structure SpeedDropDetection where
  timestamp : ℤ
  value : ℚ
deriving DecidableEq

/-- Payload of `highAccelerationDetected.current` (line 54). -/
structure HighAccelerationDetection where
  timestamp : ℤ
  magnitude : ℚ
  duration : ℤ
deriving DecidableEq

/-- Payload of `highTiltDetected.current` (line 55). -/
structure HighTiltDetection where
  timestamp : ℤ
  tilt : ℚ
deriving DecidableEq

/-- Payload of `lastKnownCoordinates.current` (line 59). -/
structure Coordinates where
  latitude : ℚ
  longitude : ℚ
deriving DecidableEq

/-- The engine's mutable refs (lines 47-59). -/
structure EngineState where
  lastSpeed : Option ℚ
  lastLocationTimestamp : Option ℤ
  accelPeakTimestamp : Option ℤ
  speedDropDetected : Option SpeedDropDetection
  highAccelerationDetected : Option HighAccelerationDetection
  highTiltDetected : Option HighTiltDetection
  lastAlertTimestamp : ℤ
  lastKnownCoordinates : Option Coordinates
  alertsEnabled : Bool
deriving DecidableEq

/-- Initial values of the refs on component mount. -/
def initialEngineState : EngineState :=
  { lastSpeed := none
    lastLocationTimestamp := none
    accelPeakTimestamp := none
    speedDropDetected := none
    highAccelerationDetected := none
    highTiltDetected := none
    lastAlertTimestamp := 0
    lastKnownCoordinates := none
    alertsEnabled := true }

/-- The compound alert constructed by the correlation check: the "Combined"
`triggerAlert` call embeds the three detections' current values and the
last known coordinates (lines 297-300 and 338-345). -/
structure CompoundAlert where
  timestamp : ℤ
  speedDrop : ℚ
  accelMagnitude : ℚ
  tilt : ℚ
  coordinates : Option Coordinates
deriving DecidableEq

/-- Result of one `triggerAlert` call: the engine state afterwards, the
alert handed to the delivery channel (if the gate passed), and whether a
delivery failure was surfaced via the error popup (lines 363-368). -/
structure DispatchOutcome where
  state : EngineState
  dispatched : Option CompoundAlert
  deliveryErrorSurfaced : Bool
deriving DecidableEq

/-- Result of one synchronous pass through a handler: the engine state,
the compound alerts constructed by correlation checks during the pass,
those of them that passed the dispatch gate, and the number of surfaced
delivery failures. -/
structure StepOutcome where
  state : EngineState
  fired : List CompoundAlert
  dispatched : List CompoundAlert
  deliveryErrorsSurfaced : ℕ
deriving DecidableEq

/-- A pass that constructs no alert and only transforms the state. -/
def StepOutcome.pure (st : EngineState) : StepOutcome :=
  { state := st, fired := [], dispatched := [], deliveryErrorsSurfaced := 0 }

/-- `isSpeedDropActive` (line 290). -/
def isSpeedDropActive (st : EngineState) (now : ℤ) : Bool :=
  match st.speedDropDetected with
  | some d => decide (now - d.timestamp < COMBINED_ALERT_WINDOW_MS)
  | none => false

/-- `isHighAccelerationActive` (line 291). -/
def isHighAccelerationActive (st : EngineState) (now : ℤ) : Bool :=
  match st.highAccelerationDetected with
  | some d => decide (now - d.timestamp < COMBINED_ALERT_WINDOW_MS)
  | none => false

/-- `isHighTiltActive` (line 292). -/
def isHighTiltActive (st : EngineState) (now : ℤ) : Bool :=
  match st.highTiltDetected with
  | some d => decide (now - d.timestamp < COMBINED_ALERT_WINDOW_MS)
  | none => false

/-- `triggerAlert` (lines 310-368), at its only reachable call site (the
"Combined" call from `checkCombinedConditions`).  If alerts are disabled
or the cooldown has not elapsed it returns without touching any state
(lines 315-318); otherwise it sets `lastAlertTimestamp := now` (line 320)
and hands the alert to the delivery channel.  `deliveryOk` is the outcome
of the external `fetch`; its failure only surfaces an error popup
(lines 363-368). -/
def triggerAlert (st : EngineState) (now : ℤ) (a : CompoundAlert) (deliveryOk : Bool) :
    DispatchOutcome :=
  if !st.alertsEnabled || decide (now - st.lastAlertTimestamp < ALERT_COOLDOWN_MS) then
    { state := st, dispatched := none, deliveryErrorSurfaced := false }
  else
    { state := { st with lastAlertTimestamp := now }
      dispatched := some a
      deliveryErrorSurfaced := !deliveryOk }

/-- `checkCombinedConditions` (lines 287-307): if all three detections are
active at `now`, construct the compound alert from their current values
and the last known coordinates, run `triggerAlert`, and clear the three
detection flags (lines 303-305). -/
def checkCombinedConditions (st : EngineState) (now : ℤ) (ok : ℤ → Bool) : StepOutcome :=
  if isSpeedDropActive st now && isHighAccelerationActive st now && isHighTiltActive st now then
    match st.speedDropDetected, st.highAccelerationDetected, st.highTiltDetected with
    | some sd, some ha, some ht =>
        let alert : CompoundAlert :=
          { timestamp := now
            speedDrop := sd.value
            accelMagnitude := ha.magnitude
            tilt := ht.tilt
            coordinates := st.lastKnownCoordinates }
        let d := triggerAlert st now alert (ok now)
        let cleared : EngineState :=
          { d.state with
              speedDropDetected := none
              highAccelerationDetected := none
              highTiltDetected := none }
        { state := cleared
          fired := [alert]
          dispatched := d.dispatched.toList
          deliveryErrorsSurfaced := if d.deliveryErrorSurfaced then 1 else 0 }
    | _, _, _ => StepOutcome.pure st
  else StepOutcome.pure st

/-- A location sample as consumed by `handleLocationChange`: `now` is the
`Date.now()` value taken while handling it (line 171), `speed` is
`loc.coords.speed` in m/s (nullable). -/
structure LocationSample where
  now : ℤ
  latitude : ℚ
  longitude : ℚ
  speed : Option ℚ
deriving DecidableEq

/-- `timeDiff` (line 174): the inter-sample delta in seconds. -/
def locTimeDiff (prevT now : ℤ) : ℚ := ((now - prevT : ℤ) : ℚ) / 1000

/-- The last-known-coordinates update (lines 162-168).  JS truthiness:
a zero coordinate is falsy, so it is not stored. -/
def locCoordsUpdate (st : EngineState) (s : LocationSample) : EngineState :=
  { st with lastKnownCoordinates := if s.latitude ≠ 0 ∧ s.longitude ≠ 0 then some { latitude := s.latitude, longitude := s.longitude } else st.lastKnownCoordinates }

/-- The speed-drop detection block (lines 173-195): compare against the
previous (speed, timestamp) pair when one exists; on detection run the
correlation check, otherwise expire a stale detection. -/
def speedDropUpdate (st1 : EngineState) (now : ℤ) (speedKmh : ℚ) (ok : ℤ → Bool) :
    StepOutcome :=
  match st1.lastSpeed, st1.lastLocationTimestamp with
  | some prevSpeed, some prevT =>
      if locTimeDiff prevT now ≤ 1 ∧ prevSpeed - speedKmh ≥ SPEED_DROP_THRESHOLD_KMH ∧
          prevSpeed > 5 then
        checkCombinedConditions
          { st1 with speedDropDetected := some { timestamp := now, value := prevSpeed - speedKmh } }
          now ok
      else
        match st1.speedDropDetected with
        | some d =>
            if now - d.timestamp > COMBINED_ALERT_WINDOW_MS then
              StepOutcome.pure { st1 with speedDropDetected := none }
            else StepOutcome.pure st1
        | none => StepOutcome.pure st1
  | _, _ => StepOutcome.pure st1

/-- `handleLocationChange` (lines 156-199).  Converts speed to km/h
(line 157), stores last known coordinates when both are truthy (nonzero,
line 163), runs the speed-drop detection against the previous
(speed, timestamp) pair, and finally records the current pair
(lines 197-198). -/
def handleLocationChange (st : EngineState) (s : LocationSample) (ok : ℤ → Bool) :
    StepOutcome :=
  let speedKmh : ℚ := s.speed.getD 0 * (36 / 10)
  let o := speedDropUpdate (locCoordsUpdate st s) s.now speedKmh ok
  { o with state := { o.state with lastSpeed := some speedKmh, lastLocationTimestamp := some s.now } }

/-- A motion sample as consumed by `handleAccelerometer`, carrying the
derived metrics: `magnitudeG = sqrt(x² + y² + z²)` (line 202) and
`tilt = max(|pitch|, |roll|)` in degrees (lines 226-228). -/
structure MotionSample where
  now : ℤ
  magnitudeG : ℚ
  tilt : ℚ
deriving DecidableEq

/-- The high-acceleration block of `handleAccelerometer` (lines 205-223):
duration-gated by `accelPeakTimestamp`; above-threshold samples arm or
(after 60 ms) create/overwrite the detection and run the correlation
check; below-threshold samples clear the arming timestamp and expire a
stale detection. -/
def accelUpdate (st : EngineState) (now : ℤ) (magnitudeG : ℚ) (ok : ℤ → Bool) :
    StepOutcome :=
  if magnitudeG ≥ ACCEL_MAGNITUDE_THRESHOLD_G then
    match st.accelPeakTimestamp with
    | none => StepOutcome.pure { st with accelPeakTimestamp := some now }
    | some p =>
        if now - p ≥ ACCEL_DURATION_THRESHOLD_MS then
          let d : HighAccelerationDetection :=
            { timestamp := now, magnitude := magnitudeG, duration := now - p }
          checkCombinedConditions { st with highAccelerationDetected := some d } now ok
        else StepOutcome.pure st
  else
    let st2 : EngineState := { st with accelPeakTimestamp := none }
    match st2.highAccelerationDetected with
    | some d =>
        if now - d.timestamp > COMBINED_ALERT_WINDOW_MS then
          StepOutcome.pure { st2 with highAccelerationDetected := none }
        else StepOutcome.pure st2
    | none => StepOutcome.pure st2

/-- The tilt block of `handleAccelerometer` (lines 231-236): instantaneous
threshold — an above-threshold tilt immediately creates/overwrites the
detection and runs the correlation check; otherwise a stale detection is
expired. -/
def tiltUpdate (st : EngineState) (now : ℤ) (tilt : ℚ) (ok : ℤ → Bool) : StepOutcome :=
  if tilt ≥ TILT_DANGER_THRESHOLD_DEG then
    checkCombinedConditions
      { st with highTiltDetected := some { timestamp := now, tilt := tilt } } now ok
  else
    match st.highTiltDetected with
    | some d =>
        if now - d.timestamp > COMBINED_ALERT_WINDOW_MS then
          StepOutcome.pure { st with highTiltDetected := none }
        else StepOutcome.pure st
    | none => StepOutcome.pure st

/-- `handleAccelerometer` (lines 201-237): the acceleration block followed
by the tilt block, both at the same `Date.now()` value. -/
def handleAccelerometer (st : EngineState) (s : MotionSample) (ok : ℤ → Bool) :
    StepOutcome :=
  let o1 := accelUpdate st s.now s.magnitudeG ok
  let o2 := tiltUpdate o1.state s.now s.tilt ok
  { state := o2.state
    fired := o1.fired ++ o2.fired
    dispatched := o1.dispatched ++ o2.dispatched
    deliveryErrorsSurfaced := o1.deliveryErrorsSurfaced + o2.deliveryErrorsSurfaced }

/-- A device-motion sample (lines 239-284): `acceleration` is the derived
(magnitudeG, tilt) pair of `accelerationIncludingGravity || acceleration`,
absent when neither field is present. -/
structure DeviceMotionSample where
  now : ℤ
  acceleration : Option (ℚ × ℚ)
deriving DecidableEq

/-- `handleDeviceMotion` (lines 239-284): identical detection logic to
`handleAccelerometer`, skipped entirely when no acceleration vector is
available (line 246). -/
def handleDeviceMotion (st : EngineState) (s : DeviceMotionSample) (ok : ℤ → Bool) :
    StepOutcome :=
  match s.acceleration with
  | none => StepOutcome.pure st
  | some m =>
      let o1 := accelUpdate st s.now m.1 ok
      let o2 := tiltUpdate o1.state s.now m.2 ok
      { state := o2.state
        fired := o1.fired ++ o2.fired
        dispatched := o1.dispatched ++ o2.dispatched
        deliveryErrorsSurfaced := o1.deliveryErrorsSurfaced + o2.deliveryErrorsSurfaced }

/-- One input event to the engine, from either telemetry stream. -/
inductive Sample where
  | location (s : LocationSample)
  | motion (s : MotionSample)
  | deviceMotion (s : DeviceMotionSample)
deriving DecidableEq

/-- One synchronous pass of the engine on one sample. -/
def stepEngine (st : EngineState) (s : Sample) (ok : ℤ → Bool) : StepOutcome :=
  match s with
  | .location ls => handleLocationChange st ls ok
  | .motion ms => handleAccelerometer st ms ok
  | .deviceMotion ds => handleDeviceMotion st ds ok

/-- Accumulated result of a run: final state plus the chronological lists
of constructed and dispatched compound alerts. -/
structure RunOutcome where
  state : EngineState
  fired : List CompoundAlert
  dispatched : List CompoundAlert
  deliveryErrorsSurfaced : ℕ
deriving DecidableEq

/-- Fold step of a run. -/
def runStep (ok : ℤ → Bool) (r : RunOutcome) (s : Sample) : RunOutcome :=
  let o := stepEngine r.state s ok
  { state := o.state
    fired := r.fired ++ o.fired
    dispatched := r.dispatched ++ o.dispatched
    deliveryErrorsSurfaced := r.deliveryErrorsSurfaced + o.deliveryErrorsSurfaced }

/-- Process a sample sequence in arrival order. -/
def runEngine (st : EngineState) (l : List Sample) (ok : ℤ → Bool) : RunOutcome :=
  l.foldl (runStep ok) { state := st, fired := [], dispatched := [], deliveryErrorsSurfaced := 0 }

/-- State reached by processing a sequence of accelerometer samples. -/
def runMotion (st : EngineState) (l : List MotionSample) (ok : ℤ → Bool) : EngineState :=
  l.foldl (fun st s => (handleAccelerometer st s ok).state) st

/-- A delivery channel that always succeeds. -/
def okT : ℤ → Bool := fun _ => true

/-- Two qualifying compound episodes, 3000 ms apart (fires at t = 100600
and t = 103600): each episode is a 60 km/h → 15 km/h drop within 500 ms
together with a sustained 3.5 g impulse and a 35° tilt. -/
def cooldownScenario : List Sample :=
  [ .location { now := 100000, latitude := 1, longitude := 1, speed := some (50/3) }
  , .motion { now := 100100, magnitudeG := 7/2, tilt := 0 }
  , .motion { now := 100200, magnitudeG := 7/2, tilt := 0 }
  , .location { now := 100500, latitude := 1, longitude := 1, speed := some (25/6) }
  , .motion { now := 100600, magnitudeG := 7/2, tilt := 35 }
  , .location { now := 103000, latitude := 1, longitude := 1, speed := some (50/3) }
  , .motion { now := 103100, magnitudeG := 7/2, tilt := 0 }
  , .location { now := 103500, latitude := 1, longitude := 1, speed := some (25/6) }
  , .motion { now := 103600, magnitudeG := 7/2, tilt := 35 } ]

/-! ## Basic lemmas about the activity predicates and the dispatcher -/

lemma isSpeedDropActive_iff (st : EngineState) (now : ℤ) :
    isSpeedDropActive st now = true ↔
      ∃ d, st.speedDropDetected = some d ∧ now - d.timestamp < COMBINED_ALERT_WINDOW_MS := by
  unfold isSpeedDropActive
  cases h : st.speedDropDetected <;> simp

lemma isHighAccelerationActive_iff (st : EngineState) (now : ℤ) :
    isHighAccelerationActive st now = true ↔
      ∃ d, st.highAccelerationDetected = some d ∧
        now - d.timestamp < COMBINED_ALERT_WINDOW_MS := by
  unfold isHighAccelerationActive
  cases h : st.highAccelerationDetected <;> simp

lemma isHighTiltActive_iff (st : EngineState) (now : ℤ) :
    isHighTiltActive st now = true ↔
      ∃ d, st.highTiltDetected = some d ∧ now - d.timestamp < COMBINED_ALERT_WINDOW_MS := by
  unfold isHighTiltActive
  cases h : st.highTiltDetected <;> simp

lemma triggerAlert_noop (st : EngineState) (now : ℤ) (a : CompoundAlert) (dok : Bool)
    (h : st.alertsEnabled = false ∨ now - st.lastAlertTimestamp < ALERT_COOLDOWN_MS) :
    triggerAlert st now a dok =
      { state := st, dispatched := none, deliveryErrorSurfaced := false } := by
  unfold triggerAlert
  rcases h with h | h <;> simp [h]

lemma triggerAlert_pass (st : EngineState) (now : ℤ) (a : CompoundAlert) (dok : Bool)
    (he : st.alertsEnabled = true) (hc : ALERT_COOLDOWN_MS ≤ now - st.lastAlertTimestamp) :
    triggerAlert st now a dok =
      { state := { st with lastAlertTimestamp := now }
        dispatched := some a
        deliveryErrorSurfaced := !dok } := by
  unfold triggerAlert
  simp [he, not_lt.mpr hc]

lemma triggerAlert_delivery_indep (st : EngineState) (now : ℤ) (a : CompoundAlert)
    (b1 b2 : Bool) :
    (triggerAlert st now a b1).state = (triggerAlert st now a b2).state ∧
      (triggerAlert st now a b1).dispatched = (triggerAlert st now a b2).dispatched := by
  unfold triggerAlert
  split <;> exact ⟨rfl, rfl⟩

lemma triggerAlert_state_cases (st : EngineState) (now : ℤ) (a : CompoundAlert) (dok : Bool) :
    (triggerAlert st now a dok).state = st ∨
      (triggerAlert st now a dok).state = { st with lastAlertTimestamp := now } := by
  unfold triggerAlert
  split
  · exact Or.inl rfl
  · exact Or.inr rfl

/-! ## Characterization of the correlation check -/

lemma checkCombined_not_all (st : EngineState) (now : ℤ) (ok : ℤ → Bool)
    (h : (isSpeedDropActive st now && isHighAccelerationActive st now &&
          isHighTiltActive st now) = false) :
    checkCombinedConditions st now ok = StepOutcome.pure st := by
  unfold checkCombinedConditions
  simp [h]

lemma checkCombined_noSpeedDrop (st : EngineState) (now : ℤ) (ok : ℤ → Bool)
    (h : st.speedDropDetected = none) :
    checkCombinedConditions st now ok = StepOutcome.pure st := by
  apply checkCombined_not_all
  simp [isSpeedDropActive, h]

lemma checkCombined_fire (st : EngineState) (now : ℤ) (ok : ℤ → Bool)
    (sd : SpeedDropDetection) (ha : HighAccelerationDetection) (ht : HighTiltDetection)
    (hsd : st.speedDropDetected = some sd) (h1 : now - sd.timestamp < COMBINED_ALERT_WINDOW_MS)
    (hha : st.highAccelerationDetected = some ha)
    (h2 : now - ha.timestamp < COMBINED_ALERT_WINDOW_MS)
    (hht : st.highTiltDetected = some ht) (h3 : now - ht.timestamp < COMBINED_ALERT_WINDOW_MS) :
    checkCombinedConditions st now ok =
      (let alert : CompoundAlert :=
        { timestamp := now, speedDrop := sd.value, accelMagnitude := ha.magnitude,
          tilt := ht.tilt, coordinates := st.lastKnownCoordinates }
       let d := triggerAlert st now alert (ok now)
       let cleared : EngineState :=
         { d.state with
             speedDropDetected := none
             highAccelerationDetected := none
             highTiltDetected := none }
       { state := cleared
         fired := [alert]
         dispatched := d.dispatched.toList
         deliveryErrorsSurfaced := if d.deliveryErrorSurfaced then 1 else 0 }) := by
  unfold checkCombinedConditions
  simp [isSpeedDropActive, isHighAccelerationActive, isHighTiltActive,
    hsd, hha, hht, h1, h2, h3]

lemma checkCombined_frame (st : EngineState) (now : ℤ) (ok : ℤ → Bool) :
    (checkCombinedConditions st now ok).state.lastSpeed = st.lastSpeed ∧
    (checkCombinedConditions st now ok).state.lastLocationTimestamp =
      st.lastLocationTimestamp ∧
    (checkCombinedConditions st now ok).state.accelPeakTimestamp = st.accelPeakTimestamp ∧
    (checkCombinedConditions st now ok).state.lastKnownCoordinates =
      st.lastKnownCoordinates ∧
    (checkCombinedConditions st now ok).state.alertsEnabled = st.alertsEnabled := by
  unfold checkCombinedConditions triggerAlert
  repeat' split <;> simp [StepOutcome.pure]

lemma checkCombined_cases (st : EngineState) (now : ℤ) (ok : ℤ → Bool) :
    checkCombinedConditions st now ok = StepOutcome.pure st ∨
      ((checkCombinedConditions st now ok).state.speedDropDetected = none ∧
       (checkCombinedConditions st now ok).state.highAccelerationDetected = none ∧
       (checkCombinedConditions st now ok).state.highTiltDetected = none ∧
       ∃ a, (checkCombinedConditions st now ok).fired = [a]) := by
  unfold checkCombinedConditions
  split
  · split
    · right
      simp
    · left
      rfl
  · left
    rfl

/-! ## Detector blocks in the absence of a speed-drop detection

When `speedDropDetected` is absent the correlation check cannot fire, so
the acceleration and tilt blocks reduce to pure state updates. -/

lemma accelUpdate_noSD (st : EngineState) (now : ℤ) (mag : ℚ) (ok : ℤ → Bool)
    (h : st.speedDropDetected = none) :
    accelUpdate st now mag ok = StepOutcome.pure (
      if mag ≥ ACCEL_MAGNITUDE_THRESHOLD_G then
        match st.accelPeakTimestamp with
        | none => { st with accelPeakTimestamp := some now }
        | some p =>
            if now - p ≥ ACCEL_DURATION_THRESHOLD_MS then
              { st with highAccelerationDetected := some { timestamp := now, magnitude := mag, duration := now - p } }
            else st
      else
        match st.highAccelerationDetected with
        | some d =>
            if now - d.timestamp > COMBINED_ALERT_WINDOW_MS then
              { st with accelPeakTimestamp := none, highAccelerationDetected := none }
            else { st with accelPeakTimestamp := none }
        | none => { st with accelPeakTimestamp := none }) := by
  unfold accelUpdate
  repeat' split
  all_goals try rfl
  all_goals simp_all [checkCombined_noSpeedDrop, StepOutcome.pure]

lemma tiltUpdate_noSD (st : EngineState) (now : ℤ) (tilt : ℚ) (ok : ℤ → Bool)
    (h : st.speedDropDetected = none) :
    tiltUpdate st now tilt ok = StepOutcome.pure (
      if tilt ≥ TILT_DANGER_THRESHOLD_DEG then
        { st with highTiltDetected := some { timestamp := now, tilt := tilt } }
      else
        match st.highTiltDetected with
        | some d =>
            if now - d.timestamp > COMBINED_ALERT_WINDOW_MS then
              { st with highTiltDetected := none }
            else st
        | none => st) := by
  unfold tiltUpdate
  repeat' split
  all_goals try rfl
  all_goals simp_all [checkCombined_noSpeedDrop, StepOutcome.pure]

/-! ## The engine's behaviour does not depend on delivery outcomes

Everything except the surfaced error popups is a function of the sample
sequence alone: the delivery channel's success or failure feeds back
into neither detector nor dispatcher state. -/

lemma checkCombined_delivery_indep (st : EngineState) (now : ℤ) (ok1 ok2 : ℤ → Bool) :
    (checkCombinedConditions st now ok1).state = (checkCombinedConditions st now ok2).state ∧
    (checkCombinedConditions st now ok1).fired = (checkCombinedConditions st now ok2).fired ∧
    (checkCombinedConditions st now ok1).dispatched =
      (checkCombinedConditions st now ok2).dispatched := by
  unfold checkCombinedConditions
  split
  · split
    · rename_i sd ha ht heq1 heq2 heq3
      obtain ⟨h1, h2⟩ := triggerAlert_delivery_indep st now
        { timestamp := now, speedDrop := sd.value, accelMagnitude := ha.magnitude,
          tilt := ht.tilt, coordinates := st.lastKnownCoordinates } (ok1 now) (ok2 now)
      exact ⟨by simp [h1], rfl, by simp [h2]⟩
    · exact ⟨rfl, rfl, rfl⟩
  · exact ⟨rfl, rfl, rfl⟩

lemma accelUpdate_delivery_indep (st : EngineState) (now : ℤ) (mag : ℚ)
    (ok1 ok2 : ℤ → Bool) :
    (accelUpdate st now mag ok1).state = (accelUpdate st now mag ok2).state ∧
    (accelUpdate st now mag ok1).fired = (accelUpdate st now mag ok2).fired ∧
    (accelUpdate st now mag ok1).dispatched = (accelUpdate st now mag ok2).dispatched := by
  unfold accelUpdate
  repeat' split
  all_goals first
    | exact ⟨rfl, rfl, rfl⟩
    | exact checkCombined_delivery_indep _ now ok1 ok2

lemma tiltUpdate_delivery_indep (st : EngineState) (now : ℤ) (tilt : ℚ)
    (ok1 ok2 : ℤ → Bool) :
    (tiltUpdate st now tilt ok1).state = (tiltUpdate st now tilt ok2).state ∧
    (tiltUpdate st now tilt ok1).fired = (tiltUpdate st now tilt ok2).fired ∧
    (tiltUpdate st now tilt ok1).dispatched = (tiltUpdate st now tilt ok2).dispatched := by
  unfold tiltUpdate
  repeat' split
  all_goals first
    | exact ⟨rfl, rfl, rfl⟩
    | exact checkCombined_delivery_indep _ now ok1 ok2

lemma handleAccelerometer_delivery_indep (st : EngineState) (s : MotionSample)
    (ok1 ok2 : ℤ → Bool) :
    (handleAccelerometer st s ok1).state = (handleAccelerometer st s ok2).state ∧
    (handleAccelerometer st s ok1).fired = (handleAccelerometer st s ok2).fired ∧
    (handleAccelerometer st s ok1).dispatched = (handleAccelerometer st s ok2).dispatched := by
  unfold handleAccelerometer
  obtain ⟨a1, a2, a3⟩ := accelUpdate_delivery_indep st s.now s.magnitudeG ok1 ok2
  obtain ⟨t1, t2, t3⟩ :=
    tiltUpdate_delivery_indep (accelUpdate st s.now s.magnitudeG ok1).state s.now s.tilt ok1 ok2
  refine ⟨?_, ?_, ?_⟩ <;> simp only [] <;> rw [← a1]
  · exact t1
  · rw [a2, t2]
  · rw [a3, t3]

lemma handleDeviceMotion_delivery_indep (st : EngineState) (s : DeviceMotionSample)
    (ok1 ok2 : ℤ → Bool) :
    (handleDeviceMotion st s ok1).state = (handleDeviceMotion st s ok2).state ∧
    (handleDeviceMotion st s ok1).fired = (handleDeviceMotion st s ok2).fired ∧
    (handleDeviceMotion st s ok1).dispatched = (handleDeviceMotion st s ok2).dispatched := by
  unfold handleDeviceMotion
  cases hm : s.acceleration with
  | none => exact ⟨rfl, rfl, rfl⟩
  | some m =>
      obtain ⟨a1, a2, a3⟩ := accelUpdate_delivery_indep st s.now m.1 ok1 ok2
      obtain ⟨t1, t2, t3⟩ :=
        tiltUpdate_delivery_indep (accelUpdate st s.now m.1 ok1).state s.now m.2 ok1 ok2
      refine ⟨?_, ?_, ?_⟩ <;> simp only [] <;> rw [← a1]
      · exact t1
      · rw [a2, t2]
      · rw [a3, t3]

lemma speedDropUpdate_delivery_indep (st1 : EngineState) (now : ℤ) (speedKmh : ℚ)
    (ok1 ok2 : ℤ → Bool) :
    (speedDropUpdate st1 now speedKmh ok1).state = (speedDropUpdate st1 now speedKmh ok2).state ∧
    (speedDropUpdate st1 now speedKmh ok1).fired = (speedDropUpdate st1 now speedKmh ok2).fired ∧
    (speedDropUpdate st1 now speedKmh ok1).dispatched =
      (speedDropUpdate st1 now speedKmh ok2).dispatched := by
  unfold speedDropUpdate
  repeat' split
  all_goals first
    | exact ⟨rfl, rfl, rfl⟩
    | exact checkCombined_delivery_indep _ now ok1 ok2

lemma handleLocationChange_delivery_indep (st : EngineState) (s : LocationSample)
    (ok1 ok2 : ℤ → Bool) :
    (handleLocationChange st s ok1).state = (handleLocationChange st s ok2).state ∧
    (handleLocationChange st s ok1).fired = (handleLocationChange st s ok2).fired ∧
    (handleLocationChange st s ok1).dispatched =
      (handleLocationChange st s ok2).dispatched := by
  obtain ⟨c1, c2, c3⟩ := speedDropUpdate_delivery_indep (locCoordsUpdate st s) s.now
    (s.speed.getD 0 * (36 / 10)) ok1 ok2
  refine ⟨?_, ?_, ?_⟩
  · exact congrArg (fun x : EngineState =>
      { x with lastSpeed := some (s.speed.getD 0 * (36 / 10)), lastLocationTimestamp := some s.now }) c1
  · exact c2
  · exact c3

lemma stepEngine_delivery_indep (st : EngineState) (s : Sample) (ok1 ok2 : ℤ → Bool) :
    (stepEngine st s ok1).state = (stepEngine st s ok2).state ∧
    (stepEngine st s ok1).fired = (stepEngine st s ok2).fired ∧
    (stepEngine st s ok1).dispatched = (stepEngine st s ok2).dispatched := by
  cases s with
  | location ls => exact handleLocationChange_delivery_indep st ls ok1 ok2
  | motion ms => exact handleAccelerometer_delivery_indep st ms ok1 ok2
  | deviceMotion ds => exact handleDeviceMotion_delivery_indep st ds ok1 ok2

lemma runEngine_delivery_indep_aux (l : List Sample) (ok1 ok2 : ℤ → Bool) :
    ∀ r1 r2 : RunOutcome, r1.state = r2.state → r1.fired = r2.fired →
      r1.dispatched = r2.dispatched →
      (l.foldl (runStep ok1) r1).state = (l.foldl (runStep ok2) r2).state ∧
      (l.foldl (runStep ok1) r1).fired = (l.foldl (runStep ok2) r2).fired ∧
      (l.foldl (runStep ok1) r1).dispatched = (l.foldl (runStep ok2) r2).dispatched := by
  induction l with
  | nil => exact fun r1 r2 h1 h2 h3 => ⟨h1, h2, h3⟩
  | cons s t ih =>
      intro r1 r2 h1 h2 h3
      apply ih
      · show (stepEngine r1.state s ok1).state = (stepEngine r2.state s ok2).state
        rw [← h1]
        exact (stepEngine_delivery_indep r1.state s ok1 ok2).1
      · show r1.fired ++ (stepEngine r1.state s ok1).fired =
          r2.fired ++ (stepEngine r2.state s ok2).fired
        rw [← h1, ← h2]
        exact congrArg _ (stepEngine_delivery_indep r1.state s ok1 ok2).2.1
      · show r1.dispatched ++ (stepEngine r1.state s ok1).dispatched =
          r2.dispatched ++ (stepEngine r2.state s ok2).dispatched
        rw [← h1, ← h3]
        exact congrArg _ (stepEngine_delivery_indep r1.state s ok1 ok2).2.2

/-! ## Case analysis of one accelerometer pass without a speed-drop detection -/

lemma accelUpdate_noSD_cases (st : EngineState) (now : ℤ) (mag : ℚ) (ok : ℤ → Bool)
    (h : st.speedDropDetected = none) :
    ∃ st', accelUpdate st now mag ok = StepOutcome.pure st' ∧
      st'.speedDropDetected = none ∧
      st'.highTiltDetected = st.highTiltDetected ∧
      ((mag ≥ ACCEL_MAGNITUDE_THRESHOLD_G ∧ st.accelPeakTimestamp = none ∧
          st'.accelPeakTimestamp = some now ∧
          st'.highAccelerationDetected = st.highAccelerationDetected) ∨
       (∃ p, mag ≥ ACCEL_MAGNITUDE_THRESHOLD_G ∧ st.accelPeakTimestamp = some p ∧
          st'.accelPeakTimestamp = some p ∧ now - p ≥ ACCEL_DURATION_THRESHOLD_MS ∧
          st'.highAccelerationDetected =
            some { timestamp := now, magnitude := mag, duration := now - p }) ∨
       (∃ p, mag ≥ ACCEL_MAGNITUDE_THRESHOLD_G ∧ st.accelPeakTimestamp = some p ∧
          st'.accelPeakTimestamp = some p ∧ ¬ now - p ≥ ACCEL_DURATION_THRESHOLD_MS ∧
          st'.highAccelerationDetected = st.highAccelerationDetected) ∨
       (¬ mag ≥ ACCEL_MAGNITUDE_THRESHOLD_G ∧ st'.accelPeakTimestamp = none ∧
          (st'.highAccelerationDetected = st.highAccelerationDetected ∨
           st'.highAccelerationDetected = none))) := by
  rw [accelUpdate_noSD st now mag ok h]
  split
  case isTrue hmag =>
    split
    case h_1 heq => exact ⟨_, rfl, h, rfl, Or.inl ⟨hmag, heq, rfl, rfl⟩⟩
    case h_2 p heq =>
      split
      case isTrue hd =>
        exact ⟨_, rfl, h, rfl, Or.inr (Or.inl ⟨p, hmag, heq, heq, hd, rfl⟩)⟩
      case isFalse hd =>
        exact ⟨_, rfl, h, rfl, Or.inr (Or.inr (Or.inl ⟨p, hmag, heq, heq, hd, rfl⟩))⟩
  case isFalse hmag =>
    split
    case h_1 d heq =>
      split
      case isTrue =>
        exact ⟨_, rfl, h, rfl, Or.inr (Or.inr (Or.inr ⟨hmag, rfl, Or.inr rfl⟩))⟩
      case isFalse =>
        exact ⟨_, rfl, h, rfl, Or.inr (Or.inr (Or.inr ⟨hmag, rfl, Or.inl rfl⟩))⟩
    case h_2 heq =>
      exact ⟨_, rfl, h, rfl, Or.inr (Or.inr (Or.inr ⟨hmag, rfl, Or.inl rfl⟩))⟩

lemma tiltUpdate_noSD_cases (st : EngineState) (now : ℤ) (tilt : ℚ) (ok : ℤ → Bool)
    (h : st.speedDropDetected = none) :
    ∃ st', tiltUpdate st now tilt ok = StepOutcome.pure st' ∧
      st'.speedDropDetected = none ∧
      st'.accelPeakTimestamp = st.accelPeakTimestamp ∧
      st'.highAccelerationDetected = st.highAccelerationDetected ∧
      (st'.highTiltDetected = some { timestamp := now, tilt := tilt } ∨
       st'.highTiltDetected = st.highTiltDetected ∨ st'.highTiltDetected = none) := by
  rw [tiltUpdate_noSD st now tilt ok h]
  repeat' split
  all_goals exact ⟨_, rfl, h, rfl, rfl, by simp⟩

/-- Invariant of accelerometer-only runs from the initial state: no
speed-drop detection ever exists; whenever the arming timestamp holds `p`,
some processed sample at time `p` was above the 3 g threshold and so was
every later processed sample; and any high-acceleration detection's
timestamp is the time of some processed sample. -/
lemma runMotion_inv (ok : ℤ → Bool) :
    ∀ l : List MotionSample, l.Pairwise (fun a b => a.now < b.now) →
    (runMotion initialEngineState l ok).speedDropDetected = none ∧
    (∀ p, (runMotion initialEngineState l ok).accelPeakTimestamp = some p →
       (∃ a ∈ l, a.now = p ∧ a.magnitudeG ≥ ACCEL_MAGNITUDE_THRESHOLD_G) ∧
       ∀ a ∈ l, p ≤ a.now → a.magnitudeG ≥ ACCEL_MAGNITUDE_THRESHOLD_G) ∧
    (∀ d, (runMotion initialEngineState l ok).highAccelerationDetected = some d →
       ∃ a ∈ l, a.now = d.timestamp) := by
  intro l
  induction l using List.reverseRecOn with
  | nil => intro _; simp [runMotion, initialEngineState]
  | append_singleton t s ih =>
      intro hsort
      rw [List.pairwise_append] at hsort
      obtain ⟨htp, _, hcross⟩ := hsort
      have hlt : ∀ a ∈ t, a.now < s.now := fun a ha => hcross a ha s (by simp)
      obtain ⟨ihsd, ihpeak, ihdet⟩ := ih htp
      have hrun : runMotion initialEngineState (t ++ [s]) ok =
          (handleAccelerometer (runMotion initialEngineState t ok) s ok).state := by
        simp [runMotion, List.foldl_append]
      rw [hrun]
      obtain ⟨stA, hA, hAsd, hAtilt, hAcase⟩ :=
        accelUpdate_noSD_cases (runMotion initialEngineState t ok) s.now s.magnitudeG ok ihsd
      obtain ⟨stT, hT, hTsd, hTpeak, hTdet, _⟩ := tiltUpdate_noSD_cases stA s.now s.tilt ok hAsd
      have hstate : (handleAccelerometer (runMotion initialEngineState t ok) s ok).state = stT := by
        unfold handleAccelerometer
        rw [hA]
        show (tiltUpdate stA s.now s.tilt ok).state = stT
        rw [hT]
        rfl
      rw [hstate]
      refine ⟨hTsd, ?_, ?_⟩
      · intro p hp
        rw [hTpeak] at hp
        rcases hAcase with ⟨hmag, _, hAp, _⟩ | ⟨p0, hmag, hstp, hAp, _, _⟩ |
          ⟨p0, hmag, hstp, hAp, _, _⟩ | ⟨_, hAp, _⟩
        · rw [hAp] at hp
          obtain rfl : s.now = p := Option.some_injective _ hp
          constructor
          · exact ⟨s, by simp, rfl, hmag⟩
          · intro a ha hle
            rcases List.mem_append.mp ha with ha | ha
            · exact absurd (hlt a ha) (not_lt.mpr hle)
            · rw [List.mem_singleton.mp ha]; exact hmag
        · rw [hAp] at hp
          obtain rfl : p0 = p := Option.some_injective _ hp
          obtain ⟨⟨a0, ha0, ha0n, ha0m⟩, hall⟩ := ihpeak p0 hstp
          constructor
          · exact ⟨a0, List.mem_append.mpr (Or.inl ha0), ha0n, ha0m⟩
          · intro a ha hle
            rcases List.mem_append.mp ha with ha | ha
            · exact hall a ha hle
            · rw [List.mem_singleton.mp ha]; exact hmag
        · rw [hAp] at hp
          obtain rfl : p0 = p := Option.some_injective _ hp
          obtain ⟨⟨a0, ha0, ha0n, ha0m⟩, hall⟩ := ihpeak p0 hstp
          constructor
          · exact ⟨a0, List.mem_append.mpr (Or.inl ha0), ha0n, ha0m⟩
          · intro a ha hle
            rcases List.mem_append.mp ha with ha | ha
            · exact hall a ha hle
            · rw [List.mem_singleton.mp ha]; exact hmag
        · rw [hAp] at hp
          exact absurd hp (by simp)
      · intro d hd
        rw [hTdet] at hd
        rcases hAcase with ⟨_, _, _, hAd⟩ | ⟨p0, _, _, _, _, hAd⟩ | ⟨p0, _, _, _, _, hAd⟩ |
          ⟨_, _, hAd | hAd⟩
        · rw [hAd] at hd
          obtain ⟨a, ha, hts⟩ := ihdet d hd
          exact ⟨a, List.mem_append.mpr (Or.inl ha), hts⟩
        · rw [hAd] at hd
          obtain rfl := Option.some_injective _ hd.symm
          exact ⟨s, by simp, rfl⟩
        · rw [hAd] at hd
          obtain ⟨a, ha, hts⟩ := ihdet d hd
          exact ⟨a, List.mem_append.mpr (Or.inl ha), hts⟩
        · rw [hAd] at hd
          obtain ⟨a, ha, hts⟩ := ihdet d hd
          exact ⟨a, List.mem_append.mpr (Or.inl ha), hts⟩
        · rw [hAd] at hd
          exact absurd hd (by simp)


/-! ## Claim theorems -/

/-- A state in which all three detections are present (timestamps 500 and
600), the acceleration detector is armed at t = 100, and coordinates are
known; reachable, e.g. within the first episode of `cooldownScenario`
shifted to small times. -/
def allActiveState : EngineState :=
  { lastSpeed := some 15
    lastLocationTimestamp := some 500
    accelPeakTimestamp := some 100
    speedDropDetected := some { timestamp := 500, value := 45 }
    highAccelerationDetected := some { timestamp := 600, magnitude := 7/2, duration := 500 }
    highTiltDetected := some { timestamp := 600, tilt := 35 }
    lastAlertTimestamp := 0
    lastKnownCoordinates := some { latitude := 1, longitude := 1 }
    alertsEnabled := true }

/-- A concrete compound alert used to exercise the dispatcher. -/
def alertEx : CompoundAlert :=
  { timestamp := 700, speedDrop := 45, accelMagnitude := 7/2, tilt := 35,
    coordinates := some { latitude := 1, longitude := 1 } }

/-- Claim C5: for every detector and every state, `isActive(now)` returns
true exactly when an active detection is present with
`now − timestamp < COMBINED_ALERT_WINDOW_MS` (2000 ms), and returns false
once `now − timestamp ≥ 2000 ms`; so an active detection's timestamp is
within 2000 ms of `now` whenever `isActive` is true. -/
theorem c5_isActive_window (st : EngineState) (now : ℤ) :
    (isSpeedDropActive st now = true ↔
      ∃ d, st.speedDropDetected = some d ∧ now - d.timestamp < COMBINED_ALERT_WINDOW_MS) ∧
    (isHighAccelerationActive st now = true ↔
      ∃ d, st.highAccelerationDetected = some d ∧
        now - d.timestamp < COMBINED_ALERT_WINDOW_MS) ∧
    (isHighTiltActive st now = true ↔
      ∃ d, st.highTiltDetected = some d ∧ now - d.timestamp < COMBINED_ALERT_WINDOW_MS) ∧
    (∀ d, st.speedDropDetected = some d → COMBINED_ALERT_WINDOW_MS ≤ now - d.timestamp →
      isSpeedDropActive st now = false) ∧
    (∀ d, st.highAccelerationDetected = some d →
      COMBINED_ALERT_WINDOW_MS ≤ now - d.timestamp →
      isHighAccelerationActive st now = false) ∧
    (∀ d, st.highTiltDetected = some d → COMBINED_ALERT_WINDOW_MS ≤ now - d.timestamp →
      isHighTiltActive st now = false) := by
  refine ⟨isSpeedDropActive_iff st now, isHighAccelerationActive_iff st now,
    isHighTiltActive_iff st now, ?_, ?_, ?_⟩
  · intro d hd hexp
    have hn : ¬ (now - d.timestamp < COMBINED_ALERT_WINDOW_MS) := not_lt.mpr hexp
    simp [isSpeedDropActive, hd, hn]
  · intro d hd hexp
    have hn : ¬ (now - d.timestamp < COMBINED_ALERT_WINDOW_MS) := not_lt.mpr hexp
    simp [isHighAccelerationActive, hd, hn]
  · intro d hd hexp
    have hn : ¬ (now - d.timestamp < COMBINED_ALERT_WINDOW_MS) := not_lt.mpr hexp
    simp [isHighTiltActive, hd, hn]

/-- Witness for C5: at 2500 ms the detection from t = 500 has expired; at
600 ms it is active. -/
theorem c5_isActive_window_witness :
    isSpeedDropActive allActiveState 2500 = false ∧
      isSpeedDropActive allActiveState 600 = true := by
  constructor
  · exact (c5_isActive_window allActiveState 2500).2.2.2.1
      { timestamp := 500, value := 45 } rfl (by decide)
  · exact (c5_isActive_window allActiveState 600).1.mpr
      ⟨{ timestamp := 500, value := 45 }, rfl, by decide⟩

/-- Claim C1: whenever all three detections are active at `now`, the
correlation check fires exactly one compound alert embedding each
detector's current value, and immediately afterwards all three detections
are absent, so all three activity predicates are false. -/
theorem c1_correlation_fires_once_and_clears (st : EngineState) (now : ℤ) (ok : ℤ → Bool)
    (sd : SpeedDropDetection) (ha : HighAccelerationDetection) (ht : HighTiltDetection)
    (hsd : st.speedDropDetected = some sd) (h1 : now - sd.timestamp < COMBINED_ALERT_WINDOW_MS)
    (hha : st.highAccelerationDetected = some ha)
    (h2 : now - ha.timestamp < COMBINED_ALERT_WINDOW_MS)
    (hht : st.highTiltDetected = some ht) (h3 : now - ht.timestamp < COMBINED_ALERT_WINDOW_MS) :
    (checkCombinedConditions st now ok).fired =
      [{ timestamp := now, speedDrop := sd.value, accelMagnitude := ha.magnitude,
         tilt := ht.tilt, coordinates := st.lastKnownCoordinates }] ∧
    (checkCombinedConditions st now ok).state.speedDropDetected = none ∧
    (checkCombinedConditions st now ok).state.highAccelerationDetected = none ∧
    (checkCombinedConditions st now ok).state.highTiltDetected = none ∧
    (∀ m : ℤ, isSpeedDropActive (checkCombinedConditions st now ok).state m = false) ∧
    (∀ m : ℤ, isHighAccelerationActive (checkCombinedConditions st now ok).state m = false) ∧
    (∀ m : ℤ, isHighTiltActive (checkCombinedConditions st now ok).state m = false) := by
  rw [checkCombined_fire st now ok sd ha ht hsd h1 hha h2 hht h3]
  refine ⟨rfl, rfl, rfl, rfl, ?_, ?_, ?_⟩ <;> intro m <;>
    simp [isSpeedDropActive, isHighAccelerationActive, isHighTiltActive]

/-- Witness for C1 at `allActiveState` and `now = 700`. -/
theorem c1_witness :
    (checkCombinedConditions allActiveState 700 okT).fired =
      [{ timestamp := 700, speedDrop := 45, accelMagnitude := 7/2, tilt := 35,
         coordinates := some { latitude := 1, longitude := 1 } }] ∧
    (checkCombinedConditions allActiveState 700 okT).state.speedDropDetected = none ∧
    (checkCombinedConditions allActiveState 700 okT).state.highAccelerationDetected = none ∧
    (checkCombinedConditions allActiveState 700 okT).state.highTiltDetected = none := by
  obtain ⟨hf, hs1, hs2, hs3, _⟩ := c1_correlation_fires_once_and_clears allActiveState 700 okT
    { timestamp := 500, value := 45 } { timestamp := 600, magnitude := 7/2, duration := 500 }
    { timestamp := 600, tilt := 35 } rfl (by decide) rfl (by decide) rfl (by decide)
  exact ⟨hf, hs1, hs2, hs3⟩

/-- Claim C4: a single motion sample whose derived tilt is at least 30°
makes the HighTilt detection active immediately — at that sample's time,
with value equal to the tilt, from any prior state (no duration gate).
Within the same pass it can only disappear again by being consumed into a
compound alert that embeds exactly that tilt value and time. -/
theorem c4_highTilt_instantaneous (st : EngineState) (now : ℤ) (tilt : ℚ) (ok : ℤ → Bool)
    (h : tilt ≥ TILT_DANGER_THRESHOLD_DEG) :
    (tiltUpdate st now tilt ok).state.highTiltDetected =
        some { timestamp := now, tilt := tilt } ∨
      (∃ a, (tiltUpdate st now tilt ok).fired = [a] ∧ a.tilt = tilt ∧ a.timestamp = now ∧
        (tiltUpdate st now tilt ok).state.highTiltDetected = none) := by
  unfold tiltUpdate
  rw [if_pos h]
  set st2 : EngineState := { st with highTiltDetected := some { timestamp := now, tilt := tilt } }
    with hst2
  cases hb : (isSpeedDropActive st2 now && isHighAccelerationActive st2 now &&
      isHighTiltActive st2 now) with
  | false =>
      rw [checkCombined_not_all st2 now ok hb]
      left
      rfl
  | true =>
      simp only [Bool.and_eq_true] at hb
      obtain ⟨⟨hb1, hb2⟩, _⟩ := hb
      obtain ⟨sd, hsd, hw1⟩ := (isSpeedDropActive_iff st2 now).mp hb1
      obtain ⟨ha, hha, hw2⟩ := (isHighAccelerationActive_iff st2 now).mp hb2
      have hht : st2.highTiltDetected = some { timestamp := now, tilt := tilt } := rfl
      have hw3 : now - ({ timestamp := now, tilt := tilt } : HighTiltDetection).timestamp <
          COMBINED_ALERT_WINDOW_MS := by
        show now - now < COMBINED_ALERT_WINDOW_MS
        simp [COMBINED_ALERT_WINDOW_MS]
      rw [checkCombined_fire st2 now ok sd ha _ hsd hw1 hha hw2 hht hw3]
      right
      exact ⟨_, rfl, rfl, rfl, rfl⟩

/-- Witness for C4: a 35° tilt sample at time 5 on a fresh engine. -/
theorem c4_witness :
    (tiltUpdate initialEngineState 5 35 okT).state.highTiltDetected =
        some { timestamp := 5, tilt := 35 } ∨
      (∃ a, (tiltUpdate initialEngineState 5 35 okT).fired = [a] ∧ a.tilt = 35 ∧
        a.timestamp = 5 ∧ (tiltUpdate initialEngineState 5 35 okT).state.highTiltDetected = none) :=
  c4_highTilt_instantaneous initialEngineState 5 35 okT (by norm_num [TILT_DANGER_THRESHOLD_DEG])

/-- Claim C7: a delivery failure is surfaced to the presentation layer but
never rolls back dispatcher state and never feeds back into detector
state: the post-dispatch engine state and the dispatched alert are the
same whatever the channel outcome, and on a gate-passing dispatch whose
delivery fails the failure is surfaced while `lastAlertTimestamp` keeps
the value `now` set at gate-pass time. -/
theorem c7_delivery_failure_no_rollback :
    (∀ (st : EngineState) (now : ℤ) (a : CompoundAlert),
      (triggerAlert st now a false).state = (triggerAlert st now a true).state ∧
      (triggerAlert st now a false).dispatched = (triggerAlert st now a true).dispatched) ∧
    (∀ (st : EngineState) (now : ℤ) (a : CompoundAlert),
      st.alertsEnabled = true → ALERT_COOLDOWN_MS ≤ now - st.lastAlertTimestamp →
      (triggerAlert st now a false).deliveryErrorSurfaced = true ∧
      (triggerAlert st now a false).state.lastAlertTimestamp = now ∧
      (triggerAlert st now a true).state.lastAlertTimestamp = now) := by
  constructor
  · exact fun st now a => triggerAlert_delivery_indep st now a false true
  · intro st now a he hc
    rw [triggerAlert_pass st now a false he hc, triggerAlert_pass st now a true he hc]
    exact ⟨rfl, rfl, rfl⟩

/-- Witness for C7: a failed delivery at t = 20000 from the initial state
still consumes the cooldown. -/
theorem c7_witness :
    (triggerAlert initialEngineState 20000 alertEx false).deliveryErrorSurfaced = true ∧
    (triggerAlert initialEngineState 20000 alertEx false).state.lastAlertTimestamp = 20000 ∧
    (triggerAlert initialEngineState 20000 alertEx true).state.lastAlertTimestamp = 20000 :=
  c7_delivery_failure_no_rollback.2 initialEngineState 20000 alertEx rfl (by decide)

/-- Claim C10: when the correlation check fires it clears only the three
detection flags; the arming timestamp, previous speed, previous location
timestamp and last known coordinates are left unchanged (in fact on every
call, firing or not), so an already-armed acceleration detector re-creates
an active detection on the very next above-threshold sample with no fresh
60 ms arming period. -/
theorem c10_correlation_frame :
    (∀ (st : EngineState) (now : ℤ) (ok : ℤ → Bool),
      (checkCombinedConditions st now ok).state.accelPeakTimestamp = st.accelPeakTimestamp ∧
      (checkCombinedConditions st now ok).state.lastSpeed = st.lastSpeed ∧
      (checkCombinedConditions st now ok).state.lastLocationTimestamp =
        st.lastLocationTimestamp ∧
      (checkCombinedConditions st now ok).state.lastKnownCoordinates =
        st.lastKnownCoordinates) ∧
    (∀ (st : EngineState) (now t : ℤ) (ok : ℤ → Bool) (mag : ℚ) (p : ℤ),
      st.accelPeakTimestamp = some p →
      (checkCombinedConditions st now ok).fired ≠ [] →
      mag ≥ ACCEL_MAGNITUDE_THRESHOLD_G → t - p ≥ ACCEL_DURATION_THRESHOLD_MS →
      (accelUpdate (checkCombinedConditions st now ok).state t mag ok).state.highAccelerationDetected =
        some { timestamp := t, magnitude := mag, duration := t - p }) := by
  constructor
  · intro st now ok
    obtain ⟨f1, f2, f3, f4, _⟩ := checkCombined_frame st now ok
    exact ⟨f3, f1, f2, f4⟩
  · intro st now t ok mag p hp hne hmag hdur
    rcases checkCombined_cases st now ok with hc | ⟨hsdn, _, _, a, ha⟩
    · rw [hc] at hne
      exact absurd rfl hne
    · have hpk : (checkCombinedConditions st now ok).state.accelPeakTimestamp = some p := by
        rw [(checkCombined_frame st now ok).2.2.1]
        exact hp
      obtain ⟨stA, hA, _, _, hcase⟩ :=
        accelUpdate_noSD_cases (checkCombinedConditions st now ok).state t mag ok hsdn
      rw [hA]
      show stA.highAccelerationDetected = some { timestamp := t, magnitude := mag, duration := t - p }
      rcases hcase with ⟨_, hnone, _, _⟩ | ⟨p1, _, hp1, _, _, hdet⟩ |
        ⟨p1, _, hp1, _, hnd, _⟩ | ⟨hnm, _, _⟩
      · rw [hpk] at hnone
        cases hnone
      · rw [hpk] at hp1
        obtain rfl := Option.some_injective _ hp1
        exact hdet
      · rw [hpk] at hp1
        obtain rfl := Option.some_injective _ hp1
        exact absurd hdur hnd
      · exact absurd hmag hnm

/-- Witness for C10: after the fire at t = 700 from `allActiveState`
(armed at t = 100), a 3.5 g sample at t = 800 immediately re-creates the
detection with duration 700 ms. -/
theorem c10_witness :
    (accelUpdate (checkCombinedConditions allActiveState 700 okT).state 800 (7/2)
        okT).state.highAccelerationDetected =
      some { timestamp := 800, magnitude := 7/2, duration := 700 } :=
  c10_correlation_frame.2 allActiveState 700 800 okT (7/2) 100 rfl (by decide)
    (by norm_num [ACCEL_MAGNITUDE_THRESHOLD_G]) (by decide)

lemma cooldownScenario_eval :
    (runEngine initialEngineState cooldownScenario okT).fired =
      [{ timestamp := 100600, speedDrop := 45, accelMagnitude := 7/2, tilt := 35,
         coordinates := some { latitude := 1, longitude := 1 } },
       { timestamp := 103600, speedDrop := 45, accelMagnitude := 7/2, tilt := 35,
         coordinates := some { latitude := 1, longitude := 1 } }] ∧
    (runEngine initialEngineState cooldownScenario okT).dispatched =
      [{ timestamp := 100600, speedDrop := 45, accelMagnitude := 7/2, tilt := 35,
         coordinates := some { latitude := 1, longitude := 1 } }] := by
  norm_num [runEngine, cooldownScenario, runStep, stepEngine, handleLocationChange,
    handleAccelerometer, locCoordsUpdate, speedDropUpdate, accelUpdate, tiltUpdate,
    checkCombinedConditions, isSpeedDropActive, isHighAccelerationActive, isHighTiltActive,
    triggerAlert, StepOutcome.pure, locTimeDiff, okT, initialEngineState,
    SPEED_DROP_THRESHOLD_KMH, ACCEL_MAGNITUDE_THRESHOLD_G, ACCEL_DURATION_THRESHOLD_MS,
    TILT_DANGER_THRESHOLD_DEG, COMBINED_ALERT_WINDOW_MS, ALERT_COOLDOWN_MS]

/-- Claim C6: dispatch is a no-op (nothing sent, state untouched) when
alerts are disabled or the cooldown has not elapsed, and otherwise sets
`lastAlertTimestamp := now` before sending; any dispatched alert therefore
comes at least `ALERT_COOLDOWN_MS` after the previously recorded one.  In
the concrete scenario with two qualifying compound episodes 3000 ms apart,
correlation fires twice but only the first alert is dispatched. -/
theorem c6_cooldown_gate :
    (∀ (st : EngineState) (now : ℤ) (a : CompoundAlert) (dok : Bool),
      st.alertsEnabled = false ∨ now - st.lastAlertTimestamp < ALERT_COOLDOWN_MS →
      triggerAlert st now a dok =
        { state := st, dispatched := none, deliveryErrorSurfaced := false }) ∧
    (∀ (st : EngineState) (now : ℤ) (a : CompoundAlert) (dok : Bool),
      st.alertsEnabled = true → ALERT_COOLDOWN_MS ≤ now - st.lastAlertTimestamp →
      triggerAlert st now a dok =
        { state := { st with lastAlertTimestamp := now }, dispatched := some a,
          deliveryErrorSurfaced := !dok }) ∧
    (∀ (st : EngineState) (now : ℤ) (a : CompoundAlert) (dok : Bool),
      (triggerAlert st now a dok).dispatched = some a →
      ALERT_COOLDOWN_MS ≤ now - st.lastAlertTimestamp ∧
      (triggerAlert st now a dok).state.lastAlertTimestamp = now) ∧
    ((runEngine initialEngineState cooldownScenario okT).fired =
      [{ timestamp := 100600, speedDrop := 45, accelMagnitude := 7/2, tilt := 35,
         coordinates := some { latitude := 1, longitude := 1 } },
       { timestamp := 103600, speedDrop := 45, accelMagnitude := 7/2, tilt := 35,
         coordinates := some { latitude := 1, longitude := 1 } }] ∧
     (runEngine initialEngineState cooldownScenario okT).dispatched =
      [{ timestamp := 100600, speedDrop := 45, accelMagnitude := 7/2, tilt := 35,
         coordinates := some { latitude := 1, longitude := 1 } }]) := by
  refine ⟨triggerAlert_noop, triggerAlert_pass, ?_, cooldownScenario_eval⟩
  intro st now a dok hdisp
  by_cases he : st.alertsEnabled = true
  · by_cases hc : ALERT_COOLDOWN_MS ≤ now - st.lastAlertTimestamp
    · rw [triggerAlert_pass st now a dok he hc]
      exact ⟨hc, rfl⟩
    · rw [triggerAlert_noop st now a dok (Or.inr (not_le.mp hc))] at hdisp
      cases hdisp
  · rw [triggerAlert_noop st now a dok (Or.inl (Bool.not_eq_true _ ▸ he))] at hdisp
    cases hdisp

/-- Witness for C6: within the first 10 s of engine start the gate
suppresses a dispatch. -/
theorem c6_witness :
    triggerAlert initialEngineState 500 alertEx true =
      { state := initialEngineState, dispatched := none, deliveryErrorSurfaced := false } :=
  c6_cooldown_gate.1 initialEngineState 500 alertEx true (Or.inr (by decide))


/-! ## Claim C2: the speed-drop gate -/

lemma locTimeDiff_le_one_iff (prevT now : ℤ) :
    locTimeDiff prevT now ≤ 1 ↔ now - prevT ≤ 1000 := by
  unfold locTimeDiff
  rw [div_le_one (by norm_num : (0 : ℚ) < 1000)]
  constructor
  · intro h
    exact_mod_cast h
  · intro h
    exact_mod_cast h

lemma speedDropUpdate_detect (st1 : EngineState) (now : ℤ) (speedKmh : ℚ) (ok : ℤ → Bool)
    (prevSpeed : ℚ) (prevT : ℤ)
    (hls : st1.lastSpeed = some prevSpeed) (hlt : st1.lastLocationTimestamp = some prevT)
    (h1 : locTimeDiff prevT now ≤ 1) (h2 : prevSpeed - speedKmh ≥ SPEED_DROP_THRESHOLD_KMH)
    (h3 : prevSpeed > 5) :
    speedDropUpdate st1 now speedKmh ok =
      checkCombinedConditions
        { st1 with speedDropDetected := some { timestamp := now, value := prevSpeed - speedKmh } }
        now ok := by
  unfold speedDropUpdate
  simp only [hls, hlt]
  rw [if_pos ⟨h1, h2, h3⟩]

lemma speedDropUpdate_nodetect (st1 : EngineState) (now : ℤ) (speedKmh : ℚ) (ok : ℤ → Bool)
    (prevSpeed : ℚ) (prevT : ℤ)
    (hls : st1.lastSpeed = some prevSpeed) (hlt : st1.lastLocationTimestamp = some prevT)
    (h : ¬(locTimeDiff prevT now ≤ 1 ∧ prevSpeed - speedKmh ≥ SPEED_DROP_THRESHOLD_KMH ∧
        prevSpeed > 5)) :
    speedDropUpdate st1 now speedKmh ok = StepOutcome.pure st1 ∨
      speedDropUpdate st1 now speedKmh ok =
        StepOutcome.pure { st1 with speedDropDetected := none } := by
  unfold speedDropUpdate
  simp only [hls, hlt]
  rw [if_neg h]
  cases hsd : st1.speedDropDetected with
  | none => exact Or.inl rfl
  | some d =>
      by_cases hexp : now - d.timestamp > COMBINED_ALERT_WINDOW_MS
      · right
        simp [hexp, hls, hlt]
      · left
        simp [hexp]

/-- Sample sequence 60 km/h at t = 0, then 15 km/h at t = 500 ms
(speeds are m/s in the samples; 50/3 m/s = 60 km/h, 25/6 m/s = 15 km/h). -/
def speedSeqFast : List Sample :=
  [ .location { now := 0, latitude := 1, longitude := 1, speed := some (50/3) }
  , .location { now := 500, latitude := 1, longitude := 1, speed := some (25/6) } ]

/-- The same 45 km/h drop, but 1500 ms apart. -/
def speedSeqSlow : List Sample :=
  [ .location { now := 0, latitude := 1, longitude := 1, speed := some (50/3) }
  , .location { now := 1500, latitude := 1, longitude := 1, speed := some (25/6) } ]

/-- Claim C2: for consecutive location samples, the SpeedDrop detection is
created (value = drop magnitude, timestamp = current time) exactly when
`t − prevT ≤ 1000 ms`, `prevSpeed − speed ≥ 40 km/h` and `prevSpeed > 5`;
when the detection is created it is either present afterwards or consumed
at once into a compound alert carrying that drop; when the condition
fails, no detection is created (the stored one is at most expired).  In
particular [60 km/h at t=0, 15 km/h at t=500] yields an active SpeedDrop
of value 45, while the same drop 1500 ms apart yields none. -/
theorem c2_speedDrop_gate :
    (∀ (st : EngineState) (s : LocationSample) (ok : ℤ → Bool) (prevSpeed : ℚ) (prevT : ℤ),
      st.lastSpeed = some prevSpeed → st.lastLocationTimestamp = some prevT →
      s.now - prevT ≤ 1000 →
      prevSpeed - s.speed.getD 0 * (36 / 10) ≥ SPEED_DROP_THRESHOLD_KMH → prevSpeed > 5 →
      ((handleLocationChange st s ok).state.speedDropDetected =
          some { timestamp := s.now, value := prevSpeed - s.speed.getD 0 * (36 / 10) } ∧
        (handleLocationChange st s ok).fired = []) ∨
      (∃ a, (handleLocationChange st s ok).fired = [a] ∧
        a.speedDrop = prevSpeed - s.speed.getD 0 * (36 / 10) ∧ a.timestamp = s.now ∧
        (handleLocationChange st s ok).state.speedDropDetected = none)) ∧
    (∀ (st : EngineState) (s : LocationSample) (ok : ℤ → Bool) (prevSpeed : ℚ) (prevT : ℤ),
      st.lastSpeed = some prevSpeed → st.lastLocationTimestamp = some prevT →
      ¬(s.now - prevT ≤ 1000 ∧
        prevSpeed - s.speed.getD 0 * (36 / 10) ≥ SPEED_DROP_THRESHOLD_KMH ∧ prevSpeed > 5) →
      (handleLocationChange st s ok).fired = [] ∧
      ((handleLocationChange st s ok).state.speedDropDetected = st.speedDropDetected ∨
       (handleLocationChange st s ok).state.speedDropDetected = none)) ∧
    ((runEngine initialEngineState speedSeqFast okT).state.speedDropDetected =
        some { timestamp := 500, value := 45 } ∧
      isSpeedDropActive (runEngine initialEngineState speedSeqFast okT).state 500 = true) ∧
    (runEngine initialEngineState speedSeqSlow okT).state.speedDropDetected = none := by
  refine ⟨?_, ?_, ?_, ?_⟩
  · intro st s ok prevSpeed prevT hls hlt htime hdrop hprev
    have e := speedDropUpdate_detect (locCoordsUpdate st s) s.now (s.speed.getD 0 * (36 / 10))
      ok prevSpeed prevT hls hlt ((locTimeDiff_le_one_iff prevT s.now).mpr htime) hdrop hprev
    set nd : SpeedDropDetection :=
      { timestamp := s.now, value := prevSpeed - s.speed.getD 0 * (36 / 10) } with hnd
    set st2 : EngineState := { locCoordsUpdate st s with speedDropDetected := some nd } with hst2
    cases hb : (isSpeedDropActive st2 s.now && isHighAccelerationActive st2 s.now &&
        isHighTiltActive st2 s.now) with
    | false =>
        have hc := checkCombined_not_all st2 s.now ok hb
        left
        constructor
        · show (speedDropUpdate (locCoordsUpdate st s) s.now (s.speed.getD 0 * (36 / 10))
            ok).state.speedDropDetected = some nd
          rw [e, hc]
          rfl
        · show (speedDropUpdate (locCoordsUpdate st s) s.now (s.speed.getD 0 * (36 / 10))
            ok).fired = []
          rw [e, hc]
          rfl
    | true =>
        simp only [Bool.and_eq_true] at hb
        obtain ⟨⟨hb1, hb2⟩, hb3⟩ := hb
        obtain ⟨sd, hsd, hw1⟩ := (isSpeedDropActive_iff st2 s.now).mp hb1
        obtain ⟨ha, hha, hw2⟩ := (isHighAccelerationActive_iff st2 s.now).mp hb2
        obtain ⟨ht, hht, hw3⟩ := (isHighTiltActive_iff st2 s.now).mp hb3
        have hsd2 : some nd = some sd := hsd
        obtain rfl := Option.some_injective _ hsd2
        have hfire := checkCombined_fire st2 s.now ok nd ha ht hsd hw1 hha hw2 hht hw3
        right
        refine ⟨{ timestamp := s.now, speedDrop := nd.value, accelMagnitude := ha.magnitude, tilt := ht.tilt, coordinates := st2.lastKnownCoordinates }, ?_, rfl, rfl, ?_⟩
        · show (speedDropUpdate (locCoordsUpdate st s) s.now (s.speed.getD 0 * (36 / 10))
            ok).fired = _
          rw [e, hfire]
        · show (speedDropUpdate (locCoordsUpdate st s) s.now (s.speed.getD 0 * (36 / 10))
            ok).state.speedDropDetected = none
          rw [e, hfire]
  · intro st s ok prevSpeed prevT hls hlt hnc
    have hnc2 : ¬(locTimeDiff prevT s.now ≤ 1 ∧
        prevSpeed - s.speed.getD 0 * (36 / 10) ≥ SPEED_DROP_THRESHOLD_KMH ∧ prevSpeed > 5) := by
      rintro ⟨w1, w2, w3⟩
      exact hnc ⟨(locTimeDiff_le_one_iff prevT s.now).mp w1, w2, w3⟩
    rcases speedDropUpdate_nodetect (locCoordsUpdate st s) s.now (s.speed.getD 0 * (36 / 10))
      ok prevSpeed prevT hls hlt hnc2 with e | e
    · constructor
      · show (speedDropUpdate (locCoordsUpdate st s) s.now (s.speed.getD 0 * (36 / 10))
          ok).fired = []
        rw [e]
        rfl
      · left
        show (speedDropUpdate (locCoordsUpdate st s) s.now (s.speed.getD 0 * (36 / 10))
          ok).state.speedDropDetected = st.speedDropDetected
        rw [e]
        rfl
    · constructor
      · show (speedDropUpdate (locCoordsUpdate st s) s.now (s.speed.getD 0 * (36 / 10))
          ok).fired = []
        rw [e]
        rfl
      · right
        show (speedDropUpdate (locCoordsUpdate st s) s.now (s.speed.getD 0 * (36 / 10))
          ok).state.speedDropDetected = none
        rw [e]
        rfl
  · norm_num [runEngine, speedSeqFast, runStep, stepEngine, handleLocationChange,
      locCoordsUpdate, speedDropUpdate, checkCombinedConditions, isSpeedDropActive,
      isHighAccelerationActive, isHighTiltActive, triggerAlert, StepOutcome.pure, locTimeDiff,
      okT, initialEngineState, SPEED_DROP_THRESHOLD_KMH, COMBINED_ALERT_WINDOW_MS,
      ALERT_COOLDOWN_MS]
  · norm_num [runEngine, speedSeqSlow, runStep, stepEngine, handleLocationChange,
      locCoordsUpdate, speedDropUpdate, checkCombinedConditions, isSpeedDropActive,
      isHighAccelerationActive, isHighTiltActive, triggerAlert, StepOutcome.pure, locTimeDiff,
      okT, initialEngineState, SPEED_DROP_THRESHOLD_KMH, COMBINED_ALERT_WINDOW_MS,
      ALERT_COOLDOWN_MS]

/-- Witness for C2 at a concrete state: 60 km/h at t = 0 then 15 km/h at
t = 500 on an otherwise empty engine triggers the creation branch. -/
theorem c2_witness :
    ((handleLocationChange
        { initialEngineState with lastSpeed := some 60, lastLocationTimestamp := some 0 }
        { now := 500, latitude := 1, longitude := 1, speed := some (25/6) }
        okT).state.speedDropDetected = some { timestamp := 500, value := 60 - 25/6 * (36 / 10) } ∧
      (handleLocationChange
        { initialEngineState with lastSpeed := some 60, lastLocationTimestamp := some 0 }
        { now := 500, latitude := 1, longitude := 1, speed := some (25/6) }
        okT).fired = []) ∨
    (∃ a, (handleLocationChange
        { initialEngineState with lastSpeed := some 60, lastLocationTimestamp := some 0 }
        { now := 500, latitude := 1, longitude := 1, speed := some (25/6) }
        okT).fired = [a] ∧ a.speedDrop = 60 - 25/6 * (36 / 10) ∧ a.timestamp = 500 ∧
      (handleLocationChange
        { initialEngineState with lastSpeed := some 60, lastLocationTimestamp := some 0 }
        { now := 500, latitude := 1, longitude := 1, speed := some (25/6) }
        okT).state.speedDropDetected = none) := by
  have h := c2_speedDrop_gate.1
    { initialEngineState with lastSpeed := some 60, lastLocationTimestamp := some 0 }
    { now := 500, latitude := 1, longitude := 1, speed := some (25/6) }
    okT 60 0 rfl rfl (by decide) (by norm_num [SPEED_DROP_THRESHOLD_KMH])
    (by norm_num)
  exact h

/-! ## Claim C3: the high-acceleration duration gate -/

/-- Claim C3: over any strictly time-ordered motion-sample sequence, a
high-acceleration detection timestamped at the current sample's time can
only exist if the current magnitude is at least 3 g, the detector was
already armed at some earlier sample time `p` with `t − p ≥ 60 ms`, the
detection's value is (current magnitude, duration `t − p`), the arming
sample was above threshold, and every sample since the arming time was
above threshold (a below-threshold sample would have cleared the arming
timestamp). -/
theorem c3_highAcceleration_duration_gate (l : List MotionSample) (s : MotionSample)
    (ok : ℤ → Bool) (d : HighAccelerationDetection)
    (hsort : (l ++ [s]).Pairwise (fun a b => a.now < b.now))
    (hpost : (handleAccelerometer (runMotion initialEngineState l ok) s
        ok).state.highAccelerationDetected = some d)
    (hts : d.timestamp = s.now) :
    s.magnitudeG ≥ ACCEL_MAGNITUDE_THRESHOLD_G ∧
    ∃ p, (runMotion initialEngineState l ok).accelPeakTimestamp = some p ∧
      s.now - p ≥ ACCEL_DURATION_THRESHOLD_MS ∧
      d.magnitude = s.magnitudeG ∧ d.duration = s.now - p ∧
      (∃ a ∈ l, a.now = p ∧ a.magnitudeG ≥ ACCEL_MAGNITUDE_THRESHOLD_G) ∧
      (∀ a ∈ l, p ≤ a.now → a.magnitudeG ≥ ACCEL_MAGNITUDE_THRESHOLD_G) := by
  rw [List.pairwise_append] at hsort
  obtain ⟨htp, _, hcross⟩ := hsort
  have hlt : ∀ a ∈ l, a.now < s.now := fun a ha => hcross a ha s (by simp)
  obtain ⟨ihsd, ihpeak, ihdet⟩ := runMotion_inv ok l htp
  obtain ⟨stA, hA, hAsd, _, hAcase⟩ :=
    accelUpdate_noSD_cases (runMotion initialEngineState l ok) s.now s.magnitudeG ok ihsd
  obtain ⟨stT, hT, _, _, hTdet, _⟩ := tiltUpdate_noSD_cases stA s.now s.tilt ok hAsd
  have hstate : (handleAccelerometer (runMotion initialEngineState l ok) s ok).state = stT := by
    unfold handleAccelerometer
    rw [hA]
    show (tiltUpdate stA s.now s.tilt ok).state = stT
    rw [hT]
    rfl
  rw [hstate, hTdet] at hpost
  rcases hAcase with ⟨_, _, _, hAd⟩ | ⟨p0, hmag, hstp, _, hdur, hAd⟩ |
    ⟨p0, _, _, _, _, hAd⟩ | ⟨_, _, hAd | hAd⟩
  · rw [hAd] at hpost
    obtain ⟨a, ha, hna⟩ := ihdet d hpost
    rw [hts] at hna
    exact absurd (hna ▸ hlt a ha) (lt_irrefl s.now)
  · rw [hAd] at hpost
    obtain rfl := Option.some_injective _ hpost
    exact ⟨hmag, p0, hstp, hdur, rfl, rfl, (ihpeak p0 hstp).1, (ihpeak p0 hstp).2⟩
  · rw [hAd] at hpost
    obtain ⟨a, ha, hna⟩ := ihdet d hpost
    rw [hts] at hna
    exact absurd (hna ▸ hlt a ha) (lt_irrefl s.now)
  · rw [hAd] at hpost
    obtain ⟨a, ha, hna⟩ := ihdet d hpost
    rw [hts] at hna
    exact absurd (hna ▸ hlt a ha) (lt_irrefl s.now)
  · rw [hAd] at hpost
    cases hpost

/-- Witness for C3: one 3.5 g sample at t = 0 arms the detector; a second
at t = 100 creates the detection with duration 100 ms. -/
theorem c3_witness :
    ({ now := 100, magnitudeG := 7/2, tilt := 0 } : MotionSample).magnitudeG ≥
      ACCEL_MAGNITUDE_THRESHOLD_G ∧
    ∃ p, (runMotion initialEngineState [{ now := 0, magnitudeG := 7/2, tilt := 0 }]
        okT).accelPeakTimestamp = some p ∧
      ({ now := 100, magnitudeG := 7/2, tilt := 0 } : MotionSample).now - p ≥
        ACCEL_DURATION_THRESHOLD_MS ∧
      ({ timestamp := 100, magnitude := 7/2, duration := 100 } :
        HighAccelerationDetection).magnitude =
        ({ now := 100, magnitudeG := 7/2, tilt := 0 } : MotionSample).magnitudeG ∧
      ({ timestamp := 100, magnitude := 7/2, duration := 100 } :
        HighAccelerationDetection).duration =
        ({ now := 100, magnitudeG := 7/2, tilt := 0 } : MotionSample).now - p ∧
      (∃ a ∈ [({ now := 0, magnitudeG := 7/2, tilt := 0 } : MotionSample)], a.now = p ∧
        a.magnitudeG ≥ ACCEL_MAGNITUDE_THRESHOLD_G) ∧
      (∀ a ∈ [({ now := 0, magnitudeG := 7/2, tilt := 0 } : MotionSample)], p ≤ a.now →
        a.magnitudeG ≥ ACCEL_MAGNITUDE_THRESHOLD_G) :=
  c3_highAcceleration_duration_gate [{ now := 0, magnitudeG := 7/2, tilt := 0 }]
    { now := 100, magnitudeG := 7/2, tilt := 0 } okT
    { timestamp := 100, magnitude := 7/2, duration := 100 }
    (by decide)
    (by norm_num [runMotion, handleAccelerometer, accelUpdate, tiltUpdate,
      checkCombinedConditions, isSpeedDropActive, isHighAccelerationActive, isHighTiltActive,
      triggerAlert, StepOutcome.pure, initialEngineState, ACCEL_MAGNITUDE_THRESHOLD_G,
      ACCEL_DURATION_THRESHOLD_MS, TILT_DANGER_THRESHOLD_DEG, COMBINED_ALERT_WINDOW_MS, okT])
    rfl

/-! ## Claim C8: ordering of samples -/

/-- Counterexample to claim C8: a location sample whose handling time
(500) is earlier than the previous one (1000) is not rejected — it updates
detector state, creates a SpeedDrop detection from a negative time-delta,
and overwrites the previous-sample state. -/
theorem c8_counterexample :
    (handleLocationChange initialEngineState
        { now := 1000, latitude := 1, longitude := 1, speed := some (50/3) }
        okT).state.speedDropDetected = none ∧
    (handleLocationChange
        (handleLocationChange initialEngineState
          { now := 1000, latitude := 1, longitude := 1, speed := some (50/3) } okT).state
        { now := 500, latitude := 1, longitude := 1, speed := some (25/6) }
        okT).state.speedDropDetected = some { timestamp := 500, value := 45 } ∧
    (handleLocationChange
        (handleLocationChange initialEngineState
          { now := 1000, latitude := 1, longitude := 1, speed := some (50/3) } okT).state
        { now := 500, latitude := 1, longitude := 1, speed := some (25/6) }
        okT).state.lastLocationTimestamp = some 500 ∧
    locTimeDiff 1000 500 < 0 := by
  norm_num [handleLocationChange, locCoordsUpdate, speedDropUpdate, checkCombinedConditions,
    isSpeedDropActive, isHighAccelerationActive, isHighTiltActive, triggerAlert,
    StepOutcome.pure, locTimeDiff, okT, initialEngineState, SPEED_DROP_THRESHOLD_KMH,
    COMBINED_ALERT_WINDOW_MS, ALERT_COOLDOWN_MS]

/-- Claim C8 (amended): the engine performs no out-of-order rejection —
every location sample, in or out of order, overwrites the previous-sample
state with its own speed and timestamp (and can create a detection from a
zero or negative delta, see the counterexample); time-deltas entering the
detector computation are guaranteed nonnegative only because the clock
values are non-decreasing, in which case the inter-sample delta is
nonnegative. -/
theorem c8_no_ordering_rejection :
    (∀ (st : EngineState) (s : LocationSample) (ok : ℤ → Bool),
      (handleLocationChange st s ok).state.lastSpeed = some (s.speed.getD 0 * (36 / 10)) ∧
      (handleLocationChange st s ok).state.lastLocationTimestamp = some s.now) ∧
    (∀ prevT now : ℤ, prevT ≤ now → 0 ≤ locTimeDiff prevT now) := by
  constructor
  · intro st s ok
    exact ⟨rfl, rfl⟩
  · intro prevT now h
    unfold locTimeDiff
    exact div_nonneg (by exact_mod_cast sub_nonneg.mpr h) (by norm_num)

/-- Witness for C8 (amended) at concrete inputs. -/
theorem c8_witness :
    (0 : ℚ) ≤ locTimeDiff 0 500 ∧
    (handleLocationChange initialEngineState
        { now := 7, latitude := 0, longitude := 0, speed := none }
        okT).state.lastLocationTimestamp = some 7 :=
  ⟨c8_no_ordering_rejection.2 0 500 (by decide),
   (c8_no_ordering_rejection.1 initialEngineState
     { now := 7, latitude := 0, longitude := 0, speed := none } okT).2⟩

/-! ## Claim C9: determinism of replay -/

/-- Claim C9: processing the same sample sequence through two freshly
constructed engines yields the identical sequence of compound alerts (and
dispatched alerts, and final state) in both runs, whatever the external
delivery outcomes: the detection pipeline is a deterministic function of
the input sample sequence. -/
theorem c9_deterministic_replay (l : List Sample) (ok1 ok2 : ℤ → Bool) :
    (runEngine initialEngineState l ok1).fired = (runEngine initialEngineState l ok2).fired ∧
    (runEngine initialEngineState l ok1).dispatched =
      (runEngine initialEngineState l ok2).dispatched ∧
    (runEngine initialEngineState l ok1).state = (runEngine initialEngineState l ok2).state := by
  obtain ⟨h1, h2, h3⟩ := runEngine_delivery_indep_aux l ok1 ok2
    { state := initialEngineState, fired := [], dispatched := [], deliveryErrorsSurfaced := 0 }
    { state := initialEngineState, fired := [], dispatched := [], deliveryErrorsSurfaced := 0 }
    rfl rfl rfl
  exact ⟨h2, h3, h1⟩

end SpeedAlert
